import Mathlib

/-!
Verification of the TuyaSmartHomeControl application core.

The definitions below are a shallow embedding of the Python source:
`src/main.py` (classes CloudControl and CloudUI) and `src/fan_config.py`.
Python dictionaries are modelled as association lists, Python truthiness
is made explicit, remote calls are modelled by passing their outcome as
an argument, and the mutable per-device cache becomes explicit state.
-/

namespace TuyaSmartHome

/-- Dynamic values stored in a device status map (Python booleans and
integers as they appear in the Tuya status payloads). -/
inductive PyVal where
  | pbool : Bool → PyVal
  | pint : Int → PyVal
deriving DecidableEq

/-- Python truthiness of a value. -/
def truthy : PyVal → Bool
  | PyVal.pbool b => b
  | PyVal.pint n => n != 0

/-- Python int(...) coercion of a value. -/
def pyToInt : PyVal → Int
  | PyVal.pbool b => if b then 1 else 0
  | PyVal.pint n => n

/-- A device status map: capability code to value, as built by
CloudControl.get_device_status. -/
abbrev StatusMap := List (String × PyVal)

/-- Python dict.get(k, dflt) on a status map. -/
def pyGet (d : StatusMap) (k : String) (dflt : PyVal) : PyVal :=
  match d.find? (fun p => p.1 == k) with
  | some p => p.2
  | none => dflt

/-- Python dict lookup without a default (None when the key is missing). -/
def pyLookup (d : StatusMap) (k : String) : Option PyVal :=
  match d.find? (fun p => p.1 == k) with
  | some p => some p.2
  | none => none

/-- The four values a category status label can take, as displayed by
CloudUI.update_category_status: Unknown, ON, MIXED, OFF. -/
inductive CategoryStatus where
  | unknown : CategoryStatus
  | allOn : CategoryStatus
  | mixed : CategoryStatus
  | allOff : CategoryStatus
deriving DecidableEq

/-- Embedding of CloudUI.update_category_status (src/main.py, lines
761-777), restricted to the status value it computes from the list of
boolean device states: empty list gives Unknown, all(states) gives ON,
any(states) gives MIXED, otherwise OFF.  The widget recolouring side
effects are out of scope. -/
def update_category_status (states : List Bool) : CategoryStatus :=
  if states = [] then CategoryStatus.unknown
  else if states.all id then CategoryStatus.allOn
  else if states.any id then CategoryStatus.mixed
  else CategoryStatus.allOff

theorem perm_all_eq {l m : List Bool} (p : Bool → Bool) (h : l.Perm m) :
    l.all p = m.all p := by
  cases hl : l.all p <;> cases hm : m.all p
  · rfl
  · exfalso
    rw [List.all_eq_true] at hm
    rw [List.all_eq_false] at hl
    rcases hl with ⟨x, hx, hpx⟩
    exact hpx (hm x (h.mem_iff.mp hx))
  · exfalso
    rw [List.all_eq_true] at hl
    rw [List.all_eq_false] at hm
    rcases hm with ⟨x, hx, hpx⟩
    exact hpx (hl x (h.mem_iff.mpr hx))
  · rfl

theorem perm_any_eq {l m : List Bool} (p : Bool → Bool) (h : l.Perm m) :
    l.any p = m.any p := by
  cases hl : l.any p <;> cases hm : m.any p
  · rfl
  · exfalso
    rw [List.any_eq_true] at hm
    rcases hm with ⟨x, hx, hpx⟩
    rw [List.any_eq_false] at hl
    exact hl x (h.mem_iff.mpr hx) hpx
  · exfalso
    rw [List.any_eq_true] at hl
    rcases hl with ⟨x, hx, hpx⟩
    rw [List.any_eq_false] at hm
    exact hm x (h.mem_iff.mp hx) hpx
  · rfl

/-- C1: the category status aggregation returns exactly one of UNKNOWN,
ALL_ON, ALL_OFF, MIXED: UNKNOWN when the list of boolean device states is
empty, ALL_ON when it is non-empty and every element is true, ALL_OFF when
it is non-empty and every element is false, MIXED otherwise (at least one
true and at least one false); and the result depends only on the multiset
of states, not their order (it is invariant under permutation). -/
theorem update_category_status_spec (states other : List Bool)
    (hperm : states.Perm other) :
    update_category_status states = update_category_status other ∧
    (update_category_status states = CategoryStatus.unknown ↔ states = []) ∧
    (update_category_status states = CategoryStatus.allOn ↔
      states ≠ [] ∧ ∀ b ∈ states, b = true) ∧
    (update_category_status states = CategoryStatus.allOff ↔
      states ≠ [] ∧ ∀ b ∈ states, b = false) ∧
    (update_category_status states = CategoryStatus.mixed ↔
      true ∈ states ∧ false ∈ states) := by
  have key : ∀ l : List Bool,
      (update_category_status l = CategoryStatus.unknown ↔ l = []) ∧
      (update_category_status l = CategoryStatus.allOn ↔
        l ≠ [] ∧ ∀ b ∈ l, b = true) ∧
      (update_category_status l = CategoryStatus.allOff ↔
        l ≠ [] ∧ ∀ b ∈ l, b = false) ∧
      (update_category_status l = CategoryStatus.mixed ↔
        true ∈ l ∧ false ∈ l) := by
    intro l
    unfold update_category_status
    by_cases hl : l = []
    · subst hl; simp
    · rw [if_neg hl]
      by_cases hall : l.all id
      · rw [if_pos hall]
        rw [List.all_eq_true] at hall
        simp only [id] at hall
        refine ⟨iff_of_false (by decide) hl,
          iff_of_true rfl ⟨hl, hall⟩, ?_, ?_⟩
        · refine iff_of_false (by decide) ?_
          rintro ⟨-, hf⟩
          rcases List.exists_mem_of_ne_nil l hl with ⟨b, hb⟩
          have h1 := hall b hb
          have h2 := hf b hb
          rw [h1] at h2
          exact absurd h2 (by decide)
        · refine iff_of_false (by decide) ?_
          rintro ⟨-, hfmem⟩
          exact absurd (hall false hfmem) (by decide)
      · rw [if_neg hall]
        have hfalse : false ∈ l := by
          rw [Bool.not_eq_true, List.all_eq_false] at hall
          rcases hall with ⟨b, hb, hnb⟩
          simp only [id] at hnb
          cases b
          · exact hb
          · exact absurd rfl hnb
        by_cases hany : l.any id
        · rw [if_pos hany]
          rw [List.any_eq_true] at hany
          rcases hany with ⟨b, hb, hbt⟩
          simp only [id] at hbt
          subst hbt
          refine ⟨iff_of_false (by decide) hl, ?_, ?_,
            iff_of_true rfl ⟨hb, hfalse⟩⟩
          · refine iff_of_false (by decide) ?_
            rintro ⟨-, ht⟩
            exact absurd (ht false hfalse) (by decide)
          · refine iff_of_false (by decide) ?_
            rintro ⟨-, hf⟩
            exact absurd (hf true hb) (by decide)
        · rw [if_neg hany]
          rw [Bool.not_eq_true, List.any_eq_false] at hany
          refine ⟨iff_of_false (by decide) hl, ?_, ?_, ?_⟩
          · refine iff_of_false (by decide) ?_
            rintro ⟨-, ht⟩
            exact absurd (ht false hfalse) (by decide)
          · refine iff_of_true rfl ⟨hl, fun b hb => ?_⟩
            have := hany b hb
            simp only [id, Bool.not_eq_true] at this
            exact this
          · refine iff_of_false (by decide) ?_
            rintro ⟨ht, -⟩
            have := hany true ht
            simp only [id] at this
            exact this trivial
  have hinv : update_category_status states = update_category_status other := by
    by_cases hl : states = []
    · subst hl
      have : other = [] := hperm.symm.eq_nil
      rw [this]
    · have hm : other ≠ [] := by
        intro hh
        exact hl (by rw [hh] at hperm; exact hperm.eq_nil)
      unfold update_category_status
      rw [if_neg hl, if_neg hm, perm_all_eq id hperm, perm_any_eq id hperm]
  exact ⟨hinv, (key states).1, (key states).2.1, (key states).2.2.1,
    (key states).2.2.2⟩

/-- Witness for C1 at a concrete mixed pair of permuted state lists. -/
theorem update_category_status_spec_witness :
    ([true, false] : List Bool).Perm [false, true] ∧
    (update_category_status [true, false] = update_category_status [false, true] ∧
    (update_category_status [true, false] = CategoryStatus.unknown ↔
      ([true, false] : List Bool) = []) ∧
    (update_category_status [true, false] = CategoryStatus.allOn ↔
      ([true, false] : List Bool) ≠ [] ∧ ∀ b ∈ ([true, false] : List Bool), b = true) ∧
    (update_category_status [true, false] = CategoryStatus.allOff ↔
      ([true, false] : List Bool) ≠ [] ∧ ∀ b ∈ ([true, false] : List Bool), b = false) ∧
    (update_category_status [true, false] = CategoryStatus.mixed ↔
      true ∈ ([true, false] : List Bool) ∧ false ∈ ([true, false] : List Bool))) :=
  ⟨by decide, update_category_status_spec [true, false] [false, true] (by decide)⟩

/-- Helper for Python substring membership: does the haystack start with
the needle, character by character. -/
def startsWithChars : List Char → List Char → Bool
  | [], _ => true
  | _ :: _, [] => false
  | a :: as, b :: bs => a == b && startsWithChars as bs

/-- Helper for Python substring membership: does the needle occur as a
contiguous run somewhere in the haystack. -/
def containsChars (needle : List Char) : List Char → Bool
  | [] => startsWithChars needle []
  | c :: rest => startsWithChars needle (c :: rest) || containsChars needle rest

/-- Python needle in haystack on strings. -/
def substrMem (needle hay : String) : Bool :=
  containsChars needle.data hay.data

/-- Python lower() on a single character, for the ASCII range used by
device names. -/
def pyLowerChar (c : Char) : Char :=
  if 'A' ≤ c ∧ c ≤ 'Z' then Char.ofNat (c.toNat + 32) else c

/-- Python lower() on a string. -/
def pyLower (s : String) : String :=
  String.mk (s.data.map pyLowerChar)

/-- Embedding of get_normal_speed (src/fan_config.py, lines 3-8): lower
the device name and return 40 when it contains the substring written
in the source as the misspelt literal, 45 otherwise. -/
def get_normal_speed (name : String) : Nat :=
  if substrMem "exaust" (pyLower name) then 40 else 45

/-- C2 (code evaluation at the failing input): the source tests the
lower-cased name for the misspelt substring, so the correctly spelt fan
name yields 45, not the 40 the specification promises; only the misspelt
name yields 40, and a plain fan name yields 45. -/
theorem get_normal_speed_eval :
    get_normal_speed "Exhaust Fan 1" = 45 ∧
    get_normal_speed "Fan 2" = 45 ∧
    get_normal_speed "Exaust Fan 1" = 40 := by
  refine ⟨?_, ?_, ?_⟩ <;> decide

/-- Outcomes of the two remote calls a single device action can make,
passed in explicitly: the status map returned by
CloudControl.get_device_status (already lowered to the empty map on
failure), the success flag of the CloudControl.control post, and the
snapshot returned by CloudControl.get_all_statuses for the cache
refresh. -/
structure ActionEnv where
  fetched : StatusMap
  postSuccess : Bool
  allStatuses : List (String × StatusMap)
deriving DecidableEq

/-- The mutable state a device action can touch: the per-device cached
on/off flag (widget_info last_state entry, none when never set) and the
cached_states map of all device statuses. -/
structure CacheState where
  last_state : Option Bool
  cached_states : List (String × StatusMap)
deriving DecidableEq

/-- Observable outcome of one CloudUI.device_action run: whether a
status-read call happened, the value posted to the device (none when the
action aborted before posting), the cache state afterwards, and whether
the transient UI failure signal fired. -/
structure ActionOutcome where
  didFetch : Bool
  posted : Option PyVal
  state : CacheState
  failSignal : Bool
deriving DecidableEq

/-- Embedding of the tail of CloudUI.device_action (src/main.py, lines
630-662): coerce the value (bool for every command other than fan_speed,
int of the caller value for fan_speed), post it, and on success update
last_state (the posted boolean for switches, the previous cached state
with default false for fan_speed) and refresh cached_states; on failure
leave the state unchanged and fire the UI failure signal. -/
def deviceActionPost (cmd : String) (value final_value : PyVal)
    (didFetch : Bool) (env : ActionEnv) (st : CacheState) : ActionOutcome :=
  let actual_value_to_send : PyVal :=
    if cmd ≠ "fan_speed" then PyVal.pbool (truthy final_value)
    else PyVal.pint (pyToInt value)
  if env.postSuccess = true then
    let is_on : Bool :=
      if cmd ≠ "fan_speed" then truthy actual_value_to_send
      else st.last_state.getD false
    { didFetch := didFetch, posted := some actual_value_to_send,
      state := { last_state := some is_on, cached_states := env.allStatuses },
      failSignal := false }
  else
    { didFetch := didFetch, posted := some actual_value_to_send,
      state := st, failSignal := true }

/-- Embedding of CloudUI.device_action (src/main.py, lines 612-662).
When the command is not forced and its capability is one of the two
switch codes, the current status is fetched first: an empty fetch aborts
the action (nothing posted, state untouched), otherwise the value to send
becomes the negation of the current switch value; in every other case the
caller value is sent directly.  Widget recolouring is out of scope except
for the failure signal. -/
def device_action (cmd : String) (value : PyVal) (force_state : Bool)
    (env : ActionEnv) (st : CacheState) : ActionOutcome :=
  if force_state = false ∧ (cmd = "switch_1" ∨ cmd = "switch_fan") then
    if env.fetched = [] then
      { didFetch := true, posted := none, state := st, failSignal := false }
    else
      let current_state := pyGet env.fetched cmd (PyVal.pbool false)
      deviceActionPost cmd value (PyVal.pbool (!truthy current_state))
        true env st
  else
    deviceActionPost cmd value value false env st

/-- C3: for every non-forced switch command (capability switch_1 or
switch_fan) whose status fetch returns a map containing that capability,
the value posted to the device is the boolean negation of the fetched
current value. -/
theorem device_action_toggle (cmd : String) (value : PyVal) (b : Bool)
    (env : ActionEnv) (st : CacheState)
    (hcmd : cmd = "switch_1" ∨ cmd = "switch_fan")
    (hlook : pyLookup env.fetched cmd = some (PyVal.pbool b)) :
    (device_action cmd value false env st).posted =
      some (PyVal.pbool (!b)) := by
  have hne : env.fetched ≠ [] := by
    intro hh
    rw [hh] at hlook
    simp [pyLookup] at hlook
  have hget : pyGet env.fetched cmd (PyVal.pbool false) = PyVal.pbool b := by
    unfold pyGet
    unfold pyLookup at hlook
    cases hfind : env.fetched.find? (fun p => p.1 == cmd) with
    | none => rw [hfind] at hlook; exact absurd hlook (by simp)
    | some p =>
        rw [hfind] at hlook
        simp only [Option.some.injEq] at hlook
        simpa using hlook
  have hc : cmd ≠ "fan_speed" := by
    rcases hcmd with h | h <;> subst h <;> decide
  unfold device_action
  rw [if_pos ⟨rfl, hcmd⟩, if_neg hne]
  simp only [hget]
  unfold deviceActionPost
  simp only [if_pos hc]
  by_cases hps : env.postSuccess = true
  · rw [if_pos hps]; simp [truthy]
  · rw [if_neg hps]; simp [truthy]

/-- Witness for C3: toggling switch_fan whose fetched value is true
posts false. -/
theorem device_action_toggle_witness :
    (("switch_fan" = "switch_1" ∨ ("switch_fan" : String) = "switch_fan") ∧
      pyLookup [("switch_fan", PyVal.pbool true)] "switch_fan" =
        some (PyVal.pbool true)) ∧
    (device_action "switch_fan" (PyVal.pbool true) false
        ⟨[("switch_fan", PyVal.pbool true)], true, []⟩ ⟨none, []⟩).posted =
      some (PyVal.pbool (!true)) :=
  ⟨⟨Or.inr rfl, by decide⟩,
    device_action_toggle "switch_fan" (PyVal.pbool true) true
      ⟨[("switch_fan", PyVal.pbool true)], true, []⟩ ⟨none, []⟩
      (Or.inr rfl) (by decide)⟩

/-- C4: a forced command performs no status-read call, and the posted
value is the caller value coerced to bool for every capability other
than fan_speed (in particular for the two switch capabilities) and to int
for fan_speed, for every device status and cache state. -/
theorem device_action_forced (cmd : String) (value : PyVal)
    (env : ActionEnv) (st : CacheState) :
    (device_action cmd value true env st).didFetch = false ∧
    (device_action cmd value true env st).posted =
      some (if cmd ≠ "fan_speed" then PyVal.pbool (truthy value)
            else PyVal.pint (pyToInt value)) := by
  have hcond :
      ¬((true = false) ∧ (cmd = "switch_1" ∨ cmd = "switch_fan")) := by
    rintro ⟨h, -⟩; cases h
  unfold device_action
  rw [if_neg hcond]
  unfold deviceActionPost
  by_cases hps : env.postSuccess = true
  · rw [if_pos hps]; exact ⟨rfl, rfl⟩
  · rw [if_neg hps]; exact ⟨rfl, rfl⟩

/-- C6: a non-forced switch command whose status fetch comes back empty
aborts: nothing is posted to the remote API and the cached state is left
unchanged. -/
theorem device_action_fetch_failed (cmd : String) (value : PyVal)
    (env : ActionEnv) (st : CacheState)
    (hcmd : cmd = "switch_1" ∨ cmd = "switch_fan")
    (hempty : env.fetched = []) :
    (device_action cmd value false env st).posted = none ∧
    (device_action cmd value false env st).state = st := by
  unfold device_action
  rw [if_pos ⟨rfl, hcmd⟩, if_pos hempty]
  exact ⟨rfl, rfl⟩

/-- Witness for C6: a non-forced switch_1 command with an empty fetch
posts nothing and keeps the cache. -/
theorem device_action_fetch_failed_witness :
    ((("switch_1" : String) = "switch_1" ∨ ("switch_1" : String) = "switch_fan") ∧
      (⟨[], true, []⟩ : ActionEnv).fetched = []) ∧
    ((device_action "switch_1" (PyVal.pbool true) false ⟨[], true, []⟩
        ⟨some true, []⟩).posted = none ∧
      (device_action "switch_1" (PyVal.pbool true) false ⟨[], true, []⟩
        ⟨some true, []⟩).state = ⟨some true, []⟩) :=
  ⟨⟨Or.inl rfl, rfl⟩,
    device_action_fetch_failed "switch_1" (PyVal.pbool true)
      ⟨[], true, []⟩ ⟨some true, []⟩ (Or.inl rfl) rfl⟩

/-- C7: when the post to the remote API does not report success, the
cached per-device state and the cached status map are left unchanged, and
whenever a value was actually posted the only effect is the transient UI
failure signal. -/
theorem device_action_post_failure (cmd : String) (value : PyVal)
    (force_state : Bool) (env : ActionEnv) (st : CacheState)
    (hfail : env.postSuccess = false) :
    (device_action cmd value force_state env st).state = st ∧
    ((device_action cmd value force_state env st).posted.isSome = true →
      (device_action cmd value force_state env st).failSignal = true) := by
  unfold device_action deviceActionPost
  split_ifs with h1 h2 h3 h4 <;> simp_all

/-- Witness for C7: a forced switch_1 command whose post fails leaves the
cache untouched and fires the failure signal. -/
theorem device_action_post_failure_witness :
    ((⟨[], false, []⟩ : ActionEnv).postSuccess = false) ∧
    ((device_action "switch_1" (PyVal.pbool true) true ⟨[], false, []⟩
        ⟨none, []⟩).state = ⟨none, []⟩ ∧
      ((device_action "switch_1" (PyVal.pbool true) true ⟨[], false, []⟩
          ⟨none, []⟩).posted.isSome = true →
        (device_action "switch_1" (PyVal.pbool true) true ⟨[], false, []⟩
          ⟨none, []⟩).failSignal = true)) :=
  ⟨rfl, device_action_post_failure "switch_1" (PyVal.pbool true) true
    ⟨[], false, []⟩ ⟨none, []⟩ rfl⟩

/-- C10: a successful fan_speed set-point command leaves the cached
per-device on/off state at its previous value, defaulting to off when it
was never set; only switch commands change it. -/
theorem device_action_fan_speed_state (value : PyVal) (force_state : Bool)
    (env : ActionEnv) (st : CacheState) (hsucc : env.postSuccess = true) :
    (device_action "fan_speed" value force_state env st).state.last_state =
      some (st.last_state.getD false) := by
  have hcond : ¬((force_state = false) ∧
      (("fan_speed" : String) = "switch_1" ∨
        ("fan_speed" : String) = "switch_fan")) := by
    rintro ⟨-, h | h⟩ <;> exact absurd h (by decide)
  unfold device_action
  rw [if_neg hcond]
  unfold deviceActionPost
  rw [if_pos hsucc]
  simp

/-- Witness for C10: a successful fan_speed command on a device cached as
on keeps it cached as on. -/
theorem device_action_fan_speed_state_witness :
    ((⟨[], true, []⟩ : ActionEnv).postSuccess = true) ∧
    (device_action "fan_speed" (PyVal.pint 45) false ⟨[], true, []⟩
        ⟨some true, []⟩).state.last_state =
      some ((some true : Option Bool).getD false) :=
  ⟨rfl, device_action_fan_speed_state (PyVal.pint 45) false
    ⟨[], true, []⟩ ⟨some true, []⟩ rfl⟩

/-- A fan device as seen by CloudUI.normalize_fan_speeds: its id, its
display name from the device registry, and the status map its fetch
returned (empty on fetch failure). -/
structure FanDev where
  devId : String
  name : String
  fetched : StatusMap
deriving DecidableEq

/-- Embedding of CloudUI.normalize_fan_speeds (src/main.py, lines
863-875), restricted to the fan-category widgets it iterates: for each
fan whose fetched status is truthy (non-empty) and reports switch_fan as
truthy, append a forced fan_speed action with the speed computed by
get_normal_speed from the device name; every other fan is skipped. -/
def normalize_fan_speeds (fans : List FanDev) : List (String × Nat) :=
  fans.filterMap (fun d =>
    if d.fetched ≠ [] ∧
        truthy (pyGet d.fetched "switch_fan" (PyVal.pbool false)) = true then
      some (d.devId, get_normal_speed d.name)
    else none)

/-- C5: every set-point command dispatched by fan speed normalization
comes from a fan whose fetched status is non-empty and reports switch_fan
as on, and carries that fan's computed normal speed; fans whose fetch is
empty or reports the switch off contribute no command. -/
theorem normalize_fan_speeds_only_on (fans : List FanDev) (p : String × Nat)
    (hp : p ∈ normalize_fan_speeds fans) :
    ∃ d, d ∈ fans ∧ d.devId = p.1 ∧ d.fetched ≠ [] ∧
      truthy (pyGet d.fetched "switch_fan" (PyVal.pbool false)) = true ∧
      p.2 = get_normal_speed d.name := by
  unfold normalize_fan_speeds at hp
  rw [List.mem_filterMap] at hp
  rcases hp with ⟨d, hd, hsome⟩
  by_cases hc : d.fetched ≠ [] ∧
      truthy (pyGet d.fetched "switch_fan" (PyVal.pbool false)) = true
  · rw [if_pos hc, Option.some.injEq] at hsome
    subst hsome
    exact ⟨d, hd, rfl, hc.1, hc.2, rfl⟩
  · rw [if_neg hc] at hsome
    cases hsome

/-- Witness for C5: a fan reported on is normalized to its computed
speed. -/
theorem normalize_fan_speeds_only_on_witness :
    ("f1", 45) ∈ normalize_fan_speeds
        [⟨"f1", "Fan 2", [("switch_fan", PyVal.pbool true)]⟩] ∧
    (∃ d, d ∈ [(⟨"f1", "Fan 2", [("switch_fan", PyVal.pbool true)]⟩ : FanDev)] ∧
      d.devId = ("f1", 45).1 ∧ d.fetched ≠ [] ∧
      truthy (pyGet d.fetched "switch_fan" (PyVal.pbool false)) = true ∧
      ("f1", 45).2 = get_normal_speed d.name) :=
  ⟨by decide, normalize_fan_speeds_only_on
    [⟨"f1", "Fan 2", [("switch_fan", PyVal.pbool true)]⟩] ("f1", 45)
    (by decide)⟩

/-- Outcome of one raw call into the vendor SDK: either an exception was
raised, or a response value came back. -/
inductive ApiOutcome (α : Type) where
  | raised : ApiOutcome α
  | returned : α → ApiOutcome α
deriving DecidableEq

/-- Shape of the vendor status response consumed by
CloudControl.get_device_status: the success flag and the result list of
code/value items. -/
structure StatusResponse where
  success : Bool
  result : List (String × PyVal)
deriving DecidableEq

/-- Python dict insertion with overwrite, used to model the dict
comprehension over the result items. -/
def dictInsert (d : StatusMap) (k : String) (v : PyVal) : StatusMap :=
  if d.any (fun p => p.1 == k) then
    d.map (fun p => if p.1 == k then (k, v) else p)
  else d ++ [(k, v)]

/-- Embedding of CloudControl.get_device_status (src/main.py, lines
86-94): on a successful response build the code-to-value map from the
result items, on a non-success response or a raised exception return the
empty map. -/
def get_device_status (resp : ApiOutcome StatusResponse) : StatusMap :=
  match resp with
  | ApiOutcome.raised => []
  | ApiOutcome.returned r =>
      if r.success then
        r.result.foldl (fun d it => dictInsert d it.1 it.2) []
      else []

/-- Result of CloudControl.control as seen by its callers: just the
success flag of the returned payload. -/
structure ControlResult where
  success : Bool
deriving DecidableEq

/-- Embedding of CloudControl.control (src/main.py, lines 75-84): return
the post response, or a not-successful result when the post raised. -/
def control (resp : ApiOutcome ControlResult) : ControlResult :=
  match resp with
  | ApiOutcome.raised => { success := false }
  | ApiOutcome.returned r => r

/-- C8: a status fetch that raises or whose response is not successful
returns the empty status map rather than propagating the error, and a
command post that raises returns a not-successful result, so callers see
the same empty map for no data and for a failed call. -/
theorem remote_failures_degrade (resp : ApiOutcome StatusResponse)
    (h : resp = ApiOutcome.raised ∨
      ∃ r, resp = ApiOutcome.returned r ∧ r.success = false) :
    get_device_status resp = [] ∧
    (control ApiOutcome.raised).success = false := by
  refine ⟨?_, rfl⟩
  rcases h with h | ⟨r, hr, hs⟩
  · rw [h]; rfl
  · rw [hr]
    simp [get_device_status, hs]

/-- Witness for C8: a raised status fetch yields the empty map and a
raised post yields a not-successful result. -/
theorem remote_failures_degrade_witness :
    ((ApiOutcome.raised : ApiOutcome StatusResponse) = ApiOutcome.raised ∨
      ∃ r, (ApiOutcome.raised : ApiOutcome StatusResponse) =
        ApiOutcome.returned r ∧ r.success = false) ∧
    (get_device_status (ApiOutcome.raised : ApiOutcome StatusResponse) = [] ∧
      (control ApiOutcome.raised).success = false) :=
  ⟨Or.inl rfl, remote_failures_degrade ApiOutcome.raised (Or.inl rfl)⟩

/-- Pythonic absence of an environment variable value: os.getenv returned
None, or the empty string (both are falsy in the source's check). -/
def envAbsent (v : Option String) : Prop :=
  v = none ∨ v = some ""

instance (v : Option String) : Decidable (envAbsent v) := by
  unfold envAbsent
  infer_instance

/-- Embedding of get_env_var (src/main.py, lines 29-33): raise a
ValueError naming the variable when the environment value is falsy,
otherwise return it. -/
def get_env_var (var_name : String) (value : Option String) :
    Except String String :=
  match value with
  | none =>
      Except.error ("Missing required environment variable: " ++ var_name)
  | some s =>
      if s = "" then
        Except.error ("Missing required environment variable: " ++ var_name)
      else Except.ok s

/-- The process environment restricted to the four required variables
read at startup (src/main.py, lines 46-49). -/
structure EnvMap where
  tuya_access_id : Option String
  tuya_access_key : Option String
  tuya_api_endpoint : Option String
  tuya_config_file : Option String
deriving DecidableEq

/-- The four configuration values the module body binds at startup. -/
structure StartupConfig where
  accessId : String
  accessKey : String
  apiEndpoint : String
  configFile : String
deriving DecidableEq

/-- Embedding of the module-level startup reads (src/main.py, lines
46-49): the four get_env_var calls in source order, stopping at the first
raised error. -/
def load_startup_config (e : EnvMap) : Except String StartupConfig := do
  let a ← get_env_var "TUYA_ACCESS_ID" e.tuya_access_id
  let k ← get_env_var "TUYA_ACCESS_KEY" e.tuya_access_key
  let ep ← get_env_var "TUYA_API_ENDPOINT" e.tuya_api_endpoint
  let cf ← get_env_var "TUYA_CONFIG_FILE" e.tuya_config_file
  Except.ok ⟨a, k, ep, cf⟩

theorem get_env_var_absent (n : String) (v : Option String)
    (h : envAbsent v) :
    get_env_var n v =
      Except.error ("Missing required environment variable: " ++ n) := by
  rcases h with h | h <;> subst h <;> rfl

theorem get_env_var_present (n : String) (v : Option String)
    (h : ¬ envAbsent v) : ∃ s, get_env_var n v = Except.ok s := by
  unfold envAbsent at h
  push_neg at h
  cases v with
  | none => exact absurd rfl h.1
  | some s =>
      refine ⟨s, ?_⟩
      have hs : ¬ s = "" := fun hs => h.2 (by rw [hs])
      simp [get_env_var, hs]

/-- C9: when any of the four required configuration variables (API
credential id, API credential secret, API region endpoint, device-file
path) is absent, startup fails with an error whose message names a
variable that is indeed missing. -/
theorem load_startup_config_missing (e : EnvMap)
    (h : envAbsent e.tuya_access_id ∨ envAbsent e.tuya_access_key ∨
      envAbsent e.tuya_api_endpoint ∨ envAbsent e.tuya_config_file) :
    ∃ v, load_startup_config e =
        Except.error ("Missing required environment variable: " ++ v) ∧
      ((v = "TUYA_ACCESS_ID" ∧ envAbsent e.tuya_access_id) ∨
       (v = "TUYA_ACCESS_KEY" ∧ envAbsent e.tuya_access_key) ∨
       (v = "TUYA_API_ENDPOINT" ∧ envAbsent e.tuya_api_endpoint) ∨
       (v = "TUYA_CONFIG_FILE" ∧ envAbsent e.tuya_config_file)) := by
  by_cases h1 : envAbsent e.tuya_access_id
  · refine ⟨"TUYA_ACCESS_ID", ?_, Or.inl ⟨rfl, h1⟩⟩
    unfold load_startup_config
    rw [get_env_var_absent _ _ h1]
    rfl
  · rcases get_env_var_present "TUYA_ACCESS_ID" _ h1 with ⟨a, ha⟩
    by_cases h2 : envAbsent e.tuya_access_key
    · refine ⟨"TUYA_ACCESS_KEY", ?_, Or.inr (Or.inl ⟨rfl, h2⟩)⟩
      unfold load_startup_config
      rw [ha, get_env_var_absent _ _ h2]
      rfl
    · rcases get_env_var_present "TUYA_ACCESS_KEY" _ h2 with ⟨k, hk⟩
      by_cases h3 : envAbsent e.tuya_api_endpoint
      · refine ⟨"TUYA_API_ENDPOINT", ?_, Or.inr (Or.inr (Or.inl ⟨rfl, h3⟩))⟩
        unfold load_startup_config
        rw [ha, hk, get_env_var_absent _ _ h3]
        rfl
      · rcases get_env_var_present "TUYA_API_ENDPOINT" _ h3 with ⟨ep, hep⟩
        have h4 : envAbsent e.tuya_config_file := by
          rcases h with h | h | h | h
          · exact absurd h h1
          · exact absurd h h2
          · exact absurd h h3
          · exact h
        refine ⟨"TUYA_CONFIG_FILE", ?_,
          Or.inr (Or.inr (Or.inr ⟨rfl, h4⟩))⟩
        unfold load_startup_config
        rw [ha, hk, hep, get_env_var_absent _ _ h4]
        rfl

/-- Witness for C9: with the device-file path unset and the rest set,
startup fails naming TUYA_CONFIG_FILE. -/
theorem load_startup_config_missing_witness :
    (envAbsent (⟨some "id", some "key", some "ep", none⟩ : EnvMap).tuya_access_id ∨
     envAbsent (⟨some "id", some "key", some "ep", none⟩ : EnvMap).tuya_access_key ∨
     envAbsent (⟨some "id", some "key", some "ep", none⟩ : EnvMap).tuya_api_endpoint ∨
     envAbsent (⟨some "id", some "key", some "ep", none⟩ : EnvMap).tuya_config_file) ∧
    (∃ v, load_startup_config ⟨some "id", some "key", some "ep", none⟩ =
        Except.error ("Missing required environment variable: " ++ v) ∧
      ((v = "TUYA_ACCESS_ID" ∧
          envAbsent (⟨some "id", some "key", some "ep", none⟩ : EnvMap).tuya_access_id) ∨
       (v = "TUYA_ACCESS_KEY" ∧
          envAbsent (⟨some "id", some "key", some "ep", none⟩ : EnvMap).tuya_access_key) ∨
       (v = "TUYA_API_ENDPOINT" ∧
          envAbsent (⟨some "id", some "key", some "ep", none⟩ : EnvMap).tuya_api_endpoint) ∨
       (v = "TUYA_CONFIG_FILE" ∧
          envAbsent (⟨some "id", some "key", some "ep", none⟩ : EnvMap).tuya_config_file))) :=
  ⟨Or.inr (Or.inr (Or.inr (Or.inl rfl))),
    load_startup_config_missing ⟨some "id", some "key", some "ep", none⟩
      (Or.inr (Or.inr (Or.inr (Or.inl rfl))))⟩

end TuyaSmartHome
